import Mathlib

/-!
Verification development for the cursor-api-transformer repository: a pair of
API-format translation proxies (an OpenAI-to-DeepSeek variant in `proxy.go`
and a Claude-to-POE variant), covering the schema translators, the model
fallback dispatcher, the SSE stream relay and the auth/models routing.

The Go code manipulates JSON values decoded into `map[string]interface{}` /
`[]interface{}` via `encoding/json`.  We model those decoded values with the
inductive `Json` below, Go's `json.Marshal` of such values with `Json.render`
(object keys sorted, as Go does for maps), and `json.Unmarshal` into
`map[string]interface{}` with the fuel-based `parseObjTop` (a faithful subset:
objects, arrays, integer numbers, escape-free strings, booleans, null; inputs
outside the subset make the parser fail, which the relay code treats as
"forward unmodified", exactly like an `Unmarshal` error).
-/

/-- A decoded JSON value, mirroring the dynamic values produced by Go's
`encoding/json` (`nil`, `bool`, number, `string`, `[]interface{}`,
`map[string]interface{}`).  Numbers are restricted to integers. -/
inductive Json where
  | null : Json
  | bool : Bool → Json
  | num : Int → Json
  | str : String → Json
  | arr : List Json → Json
  | obj : List (String × Json) → Json

/-- Association-list lookup, mirroring Go map indexing `m[k]` on a decoded
`map[string]interface{}` (absent key yields the nil interface, here `none`). -/
def lookupJ : List (String × Json) → String → Option Json
  | [], _ => none
  | (k, v) :: rest, key => if k = key then some v else lookupJ rest key

/-- Map assignment `m[k] = v`: replace the binding if the key is present,
otherwise add it. -/
def setKey : List (String × Json) → String → Json → List (String × Json)
  | [], k, v => [(k, v)]
  | (k1, v1) :: rest, k, v =>
    if k1 = k then (k, v) :: rest else (k1, v1) :: setKey rest k v

/-- Insertion step for sorting object fields by key (Go's `json.Marshal`
emits map keys in sorted order). -/
def insertSorted (p : String × Json) : List (String × Json) → List (String × Json)
  | [] => [p]
  | q :: qs => if q.1 < p.1 then q :: insertSorted p qs else p :: q :: qs

/-- Sort object fields by key, as Go's `json.Marshal` does for maps. -/
def sortByKey (fs : List (String × Json)) : List (String × Json) :=
  fs.foldr insertSorted []

/-- Hex digit for string escaping. -/
def hexDigit (n : Nat) : Char :=
  if n < 10 then Char.ofNat (48 + n) else Char.ofNat (87 + n)

/-- Escape one character the way Go's `json.Marshal` does (including the
default HTML escaping of `<`, `>`, `&`). -/
def escapeChar (c : Char) : String :=
  if c = '"' then "\\\""
  else if c = '\\' then "\\\\"
  else if c = '\n' then "\\n"
  else if c = '\r' then "\\r"
  else if c = '\t' then "\\t"
  else if c = '<' then "\\u003c"
  else if c = '>' then "\\u003e"
  else if c = '&' then "\\u0026"
  else if c.toNat < 32 then
    "\\u00" ++ String.mk [hexDigit (c.toNat / 16), hexDigit (c.toNat % 16)]
  else String.singleton c

/-- Render a JSON string literal with quotes and escaping. -/
def renderString (s : String) : String :=
  "\"" ++ String.join (s.data.map escapeChar) ++ "\""

mutual
/-- Recursively sort the fields of every object by key; Go's `json.Marshal`
emits map keys in sorted order at every nesting level. -/
def Json.canon : Json → Json
  | .null => .null
  | .bool b => .bool b
  | .num n => .num n
  | .str s => .str s
  | .arr xs => .arr (canonList xs)
  | .obj fs => .obj (sortByKey (canonFields fs))

/-- Canonicalize each element of a JSON array. -/
def canonList : List Json → List Json
  | [] => []
  | x :: xs => Json.canon x :: canonList xs

/-- Canonicalize each field value of a JSON object. -/
def canonFields : List (String × Json) → List (String × Json)
  | [] => []
  | (k, v) :: xs => (k, Json.canon v) :: canonFields xs
end

mutual
/-- Serialize a decoded JSON value (members in the order given; see
`marshal` for the key-sorted form matching Go). -/
def Json.render : Json → String
  | .null => "null"
  | .bool true => "true"
  | .bool false => "false"
  | .num n => toString n
  | .str s => renderString s
  | .arr xs => "[" ++ String.intercalate "," (renderList xs) ++ "]"
  | .obj fs => "\x7b" ++ String.intercalate "," (renderMembers fs) ++ "\x7d"

/-- Render each element of a JSON array. -/
def renderList : List Json → List String
  | [] => []
  | x :: xs => Json.render x :: renderList xs

/-- Render each `key:value` member of a JSON object. -/
def renderMembers : List (String × Json) → List String
  | [] => []
  | (k, v) :: xs => (renderString k ++ ":" ++ Json.render v) :: renderMembers xs
end

/-- Model of Go's `json.Marshal` on a decoded dynamic value: no added
whitespace, object keys sorted at every level. -/
def marshal (j : Json) : String := Json.render (Json.canon j)

/-- JSON insignificant whitespace. -/
def isJsonWs (c : Char) : Bool :=
  c = ' ' || c = '\t' || c = '\n' || c = '\r'

/-- Skip insignificant whitespace. -/
def skipWs (l : List Char) : List Char := l.dropWhile isJsonWs

/-- Parse the remainder of a JSON string literal after the opening quote.
Escape sequences are outside the modelled subset and make the parse fail. -/
def parseStringChars : List Char → Option (String × List Char)
  | [] => none
  | c :: rest =>
    if c = '"' then some ("", rest)
    else if c = '\\' then none
    else match parseStringChars rest with
      | some (s, r) => some (String.singleton c ++ s, r)
      | none => none

/-- Accumulate a run of decimal digits left to right. -/
def parseDigitsAux (acc : Nat) : List Char → Nat × List Char
  | [] => (acc, [])
  | c :: rest =>
    if c.isDigit then parseDigitsAux (acc * 10 + (c.toNat - 48)) rest
    else (acc, c :: rest)

/-- Parse a run of decimal digits into a natural number; fails on no digits. -/
def parseDigits : List Char → Option (Nat × List Char)
  | [] => none
  | c :: rest =>
    if c.isDigit then some (parseDigitsAux (c.toNat - 48) rest) else none

/-- Parse an integer JSON number (optional minus sign, decimal digits). -/
def parseIntNum : List Char → Option (Int × List Char)
  | [] => none
  | c :: rest =>
    if c = '-' then
      match parseDigits rest with
      | some (n, r) => some (-(n : Int), r)
      | none => none
    else match parseDigits (c :: rest) with
      | some (n, r) => some ((n : Int), r)
      | none => none

/-- Match a literal keyword such as `rue` (after `t`) and return the rest. -/
def matchLit : List Char → List Char → Option (List Char)
  | [], l => some l
  | _, [] => none
  | k :: ks, c :: cs => if k = c then matchLit ks cs else none

mutual
/-- Fuel-based parser for a JSON value, modelling the grammar accepted by
Go's `encoding/json` on the subset described above. -/
def parseVal : Nat → List Char → Option (Json × List Char)
  | 0, _ => none
  | fuel + 1, l =>
    match skipWs l with
    | [] => none
    | c :: rest =>
      if c = '"' then
        match parseStringChars rest with
        | some (s, r) => some (.str s, r)
        | none => none
      else if c = '\x7b' then
        match skipWs rest with
        | '\x7d' :: r2 => some (.obj [], r2)
        | r2 => parseMembers fuel r2 []
      else if c = '[' then
        match skipWs rest with
        | ']' :: r2 => some (.arr [], r2)
        | r2 => parseElems fuel r2 []
      else if c = 't' then
        match matchLit ['r', 'u', 'e'] rest with
        | some r => some (.bool true, r)
        | none => none
      else if c = 'f' then
        match matchLit ['a', 'l', 's', 'e'] rest with
        | some r => some (.bool false, r)
        | none => none
      else if c = 'n' then
        match matchLit ['u', 'l', 'l'] rest with
        | some r => some (.null, r)
        | none => none
      else
        match parseIntNum (c :: rest) with
        | some (n, r) => some (.num n, r)
        | none => none

/-- Parse the members of a JSON object after the opening brace (non-empty
case).  Duplicate keys overwrite earlier ones, as Go map decoding does. -/
def parseMembers : Nat → List Char → List (String × Json) → Option (Json × List Char)
  | 0, _, _ => none
  | fuel + 1, l, acc =>
    match l with
    | '"' :: r =>
      match parseStringChars r with
      | none => none
      | some (k, r2) =>
        match skipWs r2 with
        | ':' :: r3 =>
          match parseVal fuel r3 with
          | none => none
          | some (v, r4) =>
            let acc2 := setKey acc k v
            match skipWs r4 with
            | ',' :: r5 => parseMembers fuel (skipWs r5) acc2
            | '\x7d' :: r5 => some (.obj acc2, r5)
            | _ => none
        | _ => none
    | _ => none

/-- Parse the elements of a JSON array after the opening bracket (non-empty
case). -/
def parseElems : Nat → List Char → List Json → Option (Json × List Char)
  | 0, _, _ => none
  | fuel + 1, l, acc =>
    match parseVal fuel l with
    | none => none
    | some (v, r) =>
      match skipWs r with
      | ',' :: r2 => parseElems fuel r2 (acc ++ [v])
      | ']' :: r2 => some (.arr (acc ++ [v]), r2)
      | _ => none
end

/-- Model of `json.Unmarshal(data, &m)` for `m : map[string]interface{}`:
succeeds exactly on a full JSON object (with only trailing whitespace),
yielding its fields. -/
def parseObjTop (s : String) : Option (List (String × Json)) :=
  match parseVal (s.data.length + 1) s.data with
  | some (.obj fs, rest) => if skipWs rest = [] then some fs else none
  | _ => none

/-! ## Go string helpers

Models of the `strings` standard-library functions the proxies use. -/

/-- Model of `strings.HasPrefix`. -/
def goStartsWith (s pat : String) : Bool := pat.data.isPrefixOf s.data

/-- Model of `strings.TrimPrefix`: drop `pat` from the front of `s` when it
is a prefix, otherwise return `s` unchanged. -/
def goStrip (s pat : String) : String :=
  if goStartsWith s pat then String.mk (s.data.drop pat.data.length) else s

/-- Characters treated as space by `strings.TrimSpace` (ASCII subset of
`unicode.IsSpace`, which is all the proxies ever see in SSE framing). -/
def isGoSpace (c : Char) : Bool :=
  c = ' ' || c = '\t' || c = '\n' || c = Char.ofNat 11 || c = Char.ofNat 12 || c = '\r'

/-- Model of `strings.TrimSpace`. -/
def goTrimSpace (s : String) : String :=
  String.mk (((s.data.dropWhile isGoSpace).reverse.dropWhile isGoSpace).reverse)

/-- Model of `strings.ToLower` (ASCII; the classifier's phrase matching is
ASCII-only). -/
def goToLower (s : String) : String := s.map Char.toLower

/-- Does `pat` occur as a contiguous sublist of `l`? -/
def listContains : List Char → List Char → Bool
  | l, pat =>
    if pat.isPrefixOf l then true
    else match l with
      | [] => false
      | _ :: rest => listContains rest pat

/-- Model of `strings.Contains`. -/
def strContains (s pat : String) : Bool := listContains s.data pat.data

/-- Model of `strings.Join` with separator `sep`. -/
def goJoin (parts : List String) (sep : String) : String :=
  String.intercalate sep parts

/-! ## Stream relay

Both variants contain a textually identical `handleStreamingResponse` loop
(`proxy.go` lines 488-573 and the Claude variant lines 739-816): read one
line (terminated by a newline) at a time, forward blank lines, rewrite the
`model` field of decodable `data: ` events, emit `data: [DONE]` and stop on
the done marker, and forward everything else unmodified.  `relayLines`
returns the list of chunks written downstream, in order; input is the list
of newline-terminated lines the buffered reader yields. -/

/-- What one iteration of the streaming loop does with one line: either
write a chunk and keep reading, or write the terminal done marker and
break out of the loop. -/
inductive RelayAction where
  | forward : String → RelayAction
  | done : RelayAction
deriving DecidableEq

/-- The body of the streaming loop for one input line.  Blank lines are
forwarded for SSE format; a `data: ` line is stripped and trimmed, the
`[DONE]` marker terminates the relay, a decodable JSON payload is re-emitted
with its `model` overwritten by `originalModel`, an undecodable payload is
forwarded unmodified; any other line is forwarded as-is. -/
def relayStep (originalModel line : String) : RelayAction :=
  -- skip empty lines but forward them for SSE format
  if goTrimSpace line = "" then .forward line
  else if goStartsWith line "data: " then
    let data := goTrimSpace (goStrip line "data: ")
    -- handle the [DONE] marker
    if data = "[DONE]" then .done
    else
      -- parse and modify the JSON to replace the model name
      match parseObjTop data with
      | some chunk =>
        .forward ("data: " ++
          marshal (Json.obj (setKey chunk "model" (Json.str originalModel))) ++ "\n\n")
      | none =>
        -- if parsing fails, forward the original line
        .forward line
  else
    -- forward non-data lines as-is (comments, etc.)
    .forward line

/-- The streaming loop of `handleStreamingResponse` over the input lines,
producing the chunks written to the client; the done marker writes
`data: [DONE]\n\n` and stops reading regardless of further input. -/
def relayLines (originalModel : String) : List String → List String
  | [] => []
  | line :: rest =>
    match relayStep originalModel line with
    | .done => ["data: [DONE]\n\n"]
    | .forward out => out :: relayLines originalModel rest

/-! ## Shared decode helpers

Models of `json.Unmarshal` on already-decoded `Json` values, for the typed
targets the translators use.  Unmarshaling JSON `null` into any Go value is
a no-op that leaves the zero value, hence the `.null` cases below. -/

/-- Unmarshal into a Go `string`: succeeds on a JSON string (or null,
leaving the zero value). -/
def decodeString : Json → Option String
  | .str s => some s
  | .null => some ""
  | _ => none

/-- String-typed struct field: absent or null leaves the zero value, a JSON
string decodes, any other shape is an unmarshal error. -/
def getStrField (fs : List (String × Json)) (k : String) : Option String :=
  match lookupJ fs k with
  | none => some ""
  | some (.str s) => some s
  | some .null => some ""
  | some _ => none

/-- Map-typed struct field (`map[string]interface{}`): absent or null
leaves a nil map, an object decodes, anything else errors. -/
def getObjField (fs : List (String × Json)) (k : String) :
    Option (Option (List (String × Json))) :=
  match lookupJ fs k with
  | none => some none
  | some .null => some none
  | some (.obj o) => some (some o)
  | some _ => none

/-- Unmarshal into `[]map[string]interface{}`: a JSON array whose elements
are all objects (null elements leave nil maps; a null document leaves a nil
slice). -/
def decodeGenericParts : Json → Option (List (List (String × Json)))
  | .arr xs => xs.mapM fun x =>
      match x with
      | .obj fs => some fs
      | .null => some ([] : List (String × Json))
      | _ => none
  | .null => some []
  | _ => none

/-- A tool call's `function` member (`name` and JSON-encoded `arguments`),
shared by the `ToolCall` shapes of both variants. -/
structure ToolCallFunction where
  name : String
  arguments : String
deriving DecidableEq

/-- Routing outcome of the long `proxyHandler` entry sequence shared by
both variants: CORS-only reply, 401 rejection, the static models list, or
proceeding to the translation flow with the resolved API key. -/
inductive HandlerStep where
  | corsOnly : HandlerStep
  | unauthorized : HandlerStep
  | modelsList : HandlerStep
  | proceed : String → HandlerStep
deriving DecidableEq

namespace DeepSeek

/-! ## DeepSeek variant (`proxy.go`) -/

def deepseekChatModel : String := "deepseek-chat"
def deepseekCoderModel : String := "deepseek-coder"
def deepseekReasonerModel : String := "deepseek-reasoner"

/-- `ToolCall` of `proxy.go`. -/
structure ToolCall where
  id : String
  type : String
  function : ToolCallFunction
deriving DecidableEq

/-- `Message` of `proxy.go`; `content` is the decoded form of the
`json.RawMessage` field (`none` when the field is absent). -/
structure Message where
  role : String
  content : Option Json := none
  toolCalls : List ToolCall := []
  toolCallID : String := ""
  name : String := ""

/-- `Function` of `proxy.go` (a legacy function declaration). -/
structure FunctionDef where
  name : String
  description : String
  parameters : Json

/-- `Tool` of `proxy.go`. -/
structure Tool where
  type : String
  function : FunctionDef

/-- `ChatRequest` of `proxy.go` (OpenAI-compatible inbound request). -/
structure ChatRequest where
  model : String
  messages : List Message
  stream : Bool
  functions : List FunctionDef := []
  tools : List Tool := []
  toolChoice : Option Json := none
  temperature : Option Int := none
  maxTokens : Option Int := none

/-- `DeepSeekRequest` of `proxy.go` (outbound request); a `toolChoice` of
`""` is omitted by its `omitempty` tag. -/
structure DeepSeekRequest where
  model : String
  messages : List Message
  stream : Bool
  temperature : Int := 0
  maxTokens : Int := 0
  tools : List Tool := []
  toolChoice : String := ""

/-- `ContentPart` of `proxy.go` (only `type` and `text`). -/
structure ContentPart where
  type : String := ""
  text : String := ""

/-- Unmarshal one element of `[]ContentPart`. -/
def decodeContentPart : Json → Option ContentPart
  | .obj fs => do
    let t ← getStrField fs "type"
    let tx ← getStrField fs "text"
    some { type := t, text := tx }
  | .null => some {}
  | _ => none

/-- Unmarshal into `[]ContentPart`. -/
def decodeContentParts : Json → Option (List ContentPart)
  | .arr xs => xs.mapM decodeContentPart
  | .null => some []
  | _ => none

/-- `Message.GetContentString`: try a plain string first, then an array of
content parts whose `text` entries are newline-joined; both failing yields
the empty string. -/
def GetContentString (content : Option Json) : String :=
  match content with
  | none => ""
  | some c =>
    match decodeString c with
    | some s => s
    | none =>
      match decodeContentParts c with
      | some parts =>
        goJoin (parts.filterMap fun part =>
          if part.type = "text" ∧ part.text ≠ "" then some part.text else none) "\n"
      | none => ""

/-- `convertToolChoice`: literal `"auto"`/`"none"` pass through, a map with
`type == "function"` degrades to `"auto"`, everything else (nil included)
yields the empty string, i.e. "no tool choice". -/
def convertToolChoice : Option Json → String
  | none => ""
  | some (.str s) => if s = "auto" ∨ s = "none" then s else ""
  | some (.obj fs) =>
    -- the interface comparison choiceMap["type"] == "function" holds exactly
    -- when the entry is the string "function"
    match lookupJ fs "type" with
    | some (.str t) => if t = "function" then "auto" else ""
    | _ => ""
  | some _ => ""

/-- Per-message body of the `convertMessages` loop: flatten content to a
string, re-normalize assistant tool calls with `type` forced to
`"function"`, and turn `function`-role messages into `tool`-role ones. -/
def convertMessage (msg : Message) : Message :=
  let conv := { msg with content := some (Json.str (GetContentString msg.content)) }
  let conv :=
    if msg.role = "assistant" ∧ msg.toolCalls.length > 0 then
      { conv with toolCalls := msg.toolCalls.map fun tc =>
          { id := tc.id, type := "function", function := tc.function } }
    else conv
  if msg.role = "function" then { conv with role := "tool" } else conv

/-- `convertMessages` of `proxy.go`: element-wise conversion, one output
message per input message. -/
def convertMessages (messages : List Message) : List Message :=
  messages.map convertMessage

/-- Model defaulting in `proxyHandler`: an empty requested model falls back
to `deepseek-chat`. -/
def requestModelOf (model : String) : String :=
  if model = "" then deepseekChatModel else model

/-- The `DeepSeekRequest` built by `proxyHandler` (lines 379-423): model
defaulting, message conversion, optional parameter copying, and the
tools/functions/tool-choice handling. -/
def buildDeepSeekRequest (chatReq : ChatRequest) : DeepSeekRequest :=
  let requestModel := requestModelOf chatReq.model
  let base : DeepSeekRequest :=
    { model := requestModel
      messages := convertMessages chatReq.messages
      stream := chatReq.stream }
  let base :=
    match chatReq.temperature with
    | some t => { base with temperature := t }
    | none => base
  let base :=
    match chatReq.maxTokens with
    | some t => { base with maxTokens := t }
    | none => base
  if chatReq.tools.length > 0 then
    let base := { base with tools := chatReq.tools }
    let tc := convertToolChoice chatReq.toolChoice
    if tc ≠ "" then { base with toolChoice := tc } else base
  else if chatReq.functions.length > 0 then
    -- convert functions to tools format
    let base := { base with tools := chatReq.functions.map fun fn =>
        { type := "function", function := fn } }
    let tc := convertToolChoice chatReq.toolChoice
    if tc ≠ "" then { base with toolChoice := tc } else base
  else base

/-- Body test of `isModelNotFoundError` for 400/422 statuses: the lowercased
body must contain `"model"` together with one of the not-found phrases. -/
def bodySignalsModelNotFound (body : String) : Bool :=
  let lower := goToLower body
  strContains lower "model" &&
    (strContains lower "not found" ||
      strContains lower "not exist" ||
      strContains lower "invalid model" ||
      strContains lower "does not exist" ||
      strContains lower "no such model")

/-- `isModelNotFoundError` of `proxy.go`: 404 always qualifies; 400 and 422
qualify when the body carries the model-not-found signature. -/
def isModelNotFoundError (statusCode : Nat) (body : String) : Bool :=
  if statusCode = 404 then true
  else if statusCode = 400 ∨ statusCode = 422 then bodySignalsModelNotFound body
  else false

/-- Outcome of one upstream HTTP attempt as `client.Do` surfaces it: a
transport-level connection error, or a response with status and body. -/
inductive UpstreamResult where
  | connErr : UpstreamResult
  | resp : Nat → String → UpstreamResult
deriving DecidableEq

/-- Result of `doDeepSeekRequestWithFallback`: the returned response
(status, body, model actually used), or `none` when an error is surfaced
(the caller then answers 502); `attempts` counts upstream attempts made. -/
structure FallbackResult where
  outcome : Option (Nat × String × String)
  attempts : Nat
deriving DecidableEq

/-- The second-attempt tail of `doDeepSeekRequestWithFallback`: resend with
the fixed `deepseek-reasoner` fallback model and return whatever comes
back, errors surfaced unmodified. -/
def fallbackAttempt (second : UpstreamResult) : FallbackResult :=
  match second with
  | .connErr => { outcome := none, attempts := 2 }
  | .resp s b => { outcome := some (s, b, deepseekReasonerModel), attempts := 2 }

/-- `doDeepSeekRequestWithFallback`: first attempt with the requested
model; on connection error, or on a ≥ 400 response classified by
`isModelNotFoundError`, retry exactly once with `deepseek-reasoner`; every
other response is returned as-is with the requested model.  `first` and
`second` are the outcomes the upstream would give to each attempt. -/
def doDeepSeekRequestWithFallback (model : String)
    (first second : UpstreamResult) : FallbackResult :=
  match first with
  | .connErr => fallbackAttempt second
  | .resp s b =>
    if s < 400 then { outcome := some (s, b, model), attempts := 1 }
    else if ¬ isModelNotFoundError s b then
      -- not a model error: return to the caller unchanged
      { outcome := some (s, b, model), attempts := 1 }
    else fallbackAttempt second

/-- The fallback condition exactly as claim C2 words it: connection
failure, 404, or 400/422 with the model-not-found body signature. -/
def claimTrigger : UpstreamResult → Bool
  | .connErr => true
  | .resp s b => s == 404 || ((s == 400 || s == 422) && bodySignalsModelNotFound b)

/-- The `originalModel` variable of `proxyHandler` after the dispatcher
returns (lines 446-450): it tracks the used model when a fallback
happened. -/
def originalModelAfter (chatModel usedModel : String) : String :=
  let requestModel := requestModelOf chatModel
  if usedModel ≠ requestModel then usedModel else requestModel

/-- `Usage` block of the response shapes. -/
structure Usage where
  promptTokens : Int := 0
  completionTokens : Int := 0
  totalTokens : Int := 0

/-- One `choices` entry of the DeepSeek / OpenAI response shape. -/
structure RespChoice where
  index : Int
  message : Message
  finishReason : String

/-- The anonymous response struct of `handleRegularResponse` in
`proxy.go`. -/
structure DSResponse where
  id : String
  object : String
  created : Int
  model : String
  choices : List RespChoice
  usage : Usage

/-- `handleRegularResponse` of `proxy.go` (the buffered translation): copy
`id`/`created`/`usage`, set `object` and overwrite `model` with
`originalModel`.  Each choice's message is struct-copied — which copies its
`ToolCalls` slice header — and then, when tool calls are present, the loop
appends every tool call with a non-empty function name onto that already
populated slice. -/
def handleRegularResponse (deepseekResp : DSResponse) (originalModel : String) :
    DSResponse :=
  { id := deepseekResp.id
    object := "chat.completion"
    created := deepseekResp.created
    model := originalModel
    usage := deepseekResp.usage
    choices := deepseekResp.choices.map fun choice =>
      { index := choice.index
        finishReason := choice.finishReason
        message :=
          if choice.message.toolCalls.length > 0 then
            { choice.message with toolCalls :=
                choice.message.toolCalls ++
                  choice.message.toolCalls.filter fun tc => tc.function.name ≠ "" }
          else choice.message } }

/-- The auth-and-routing head of `proxyHandler` in `proxy.go` (lines
290-321): OPTIONS short-circuits to CORS; a missing Bearer token falls back
to the server key or 401s when there is none; then GET `/v1/models` is
answered locally. -/
def authRoute (method path authHeader serverKey : String) : HandlerStep :=
  if method = "OPTIONS" then .corsOnly
  else
    let userAPIKey := goStrip authHeader "Bearer "
    let key : Option String :=
      if userAPIKey = "" ∨ userAPIKey = authHeader then
        -- no Bearer token carried: use the server key if configured
        if serverKey = "" then none else some serverKey
      else some userAPIKey
    match key with
    | none => .unauthorized
    | some k =>
      if path = "/v1/models" ∧ method = "GET" then .modelsList
      else .proceed k

end DeepSeek

namespace Claude

/-! ## Claude variant (the Claude-to-POE proxy)

Embeds the `convertClaudeToOpenAI` translator, the response handlers and
the auth/models routing of the Claude-format proxy. -/

def claudeSonnetModel : String := "claude-sonnet-4.5"
def defaultOpenAIModel : String := "claude-sonnet-4.5"

/-- `ClaudeToolCall` of the Claude variant. -/
structure ClaudeToolCall where
  id : String
  type : String
  function : ToolCallFunction
deriving DecidableEq

/-- `OpenAIToolCall` of the Claude variant. -/
structure OpenAIToolCall where
  id : String
  type : String
  function : ToolCallFunction
deriving DecidableEq

/-- `ClaudeMessage`; `content` is the decoded `json.RawMessage` (`none`
when absent). -/
structure ClaudeMessage where
  role : String
  content : Option Json := none
  toolCalls : List ClaudeToolCall := []
  toolCallID : String := ""
  name : String := ""

/-- `ClaudeContentPart`: the typed shape `[]ClaudeContentPart` decodes
into.  `input`/`cacheControl` are `map[string]interface{}` fields (`none`
models the nil map). -/
structure ClaudeContentPart where
  type : String := ""
  text : String := ""
  cacheControl : Option (List (String × Json)) := none
  id : String := ""
  name : String := ""
  input : Option (List (String × Json)) := none

/-- `ClaudeSystemMessage`. -/
structure ClaudeSystemMessage where
  type : String := ""
  text : String := ""
  cacheControl : Option (List (String × Json)) := none

/-- `ClaudeTool`. -/
structure ClaudeTool where
  name : String
  description : String
  inputSchema : List (String × Json)

/-- `ClaudeRequest` (the inbound Anthropic-style request). -/
structure ClaudeRequest where
  model : String
  messages : List ClaudeMessage
  maxTokens : Option Int := none
  system : List ClaudeSystemMessage := []
  tools : List ClaudeTool := []
  toolChoice : Option Json := none
  temperature : Option Int := none
  stream : Bool := false

/-- `OpenAIMessage` of the Claude variant; `content` is the
`interface{}` field — `none` models the nil interface, which the
`omitempty` tag drops from the serialized object. -/
structure OpenAIMessage where
  role : String
  content : Option Json := none
  toolCalls : List OpenAIToolCall := []
  toolCallID : String := ""
  name : String := ""

/-- `OpenAIFunc`. -/
structure OpenAIFunc where
  name : String
  description : String
  parameters : List (String × Json)

/-- `OpenAITool`. -/
structure OpenAITool where
  type : String
  function : OpenAIFunc

/-- `OpenAIRequest` (the outbound request).  `temperature` is a pointer to
float64 copied verbatim in the source; an integer stands in for the float
value since it is only ever passed through. -/
structure OpenAIRequest where
  model : String
  messages : List OpenAIMessage
  maxTokens : Option Int := none
  temperature : Option Int := none
  stream : Bool := false
  tools : List OpenAITool := []
  toolChoice : Option Json := none

/-- Unmarshal one element of `[]ClaudeContentPart` (struct decoding:
unknown fields ignored, wrong-typed known fields fail the decode, null
leaves the zero value). -/
def decodeContentPart : Json → Option ClaudeContentPart
  | .obj fs => do
    let t ← getStrField fs "type"
    let tx ← getStrField fs "text"
    let cc ← getObjField fs "cache_control"
    let i ← getStrField fs "id"
    let nm ← getStrField fs "name"
    let inp ← getObjField fs "input"
    some { type := t, text := tx, cacheControl := cc, id := i, name := nm, input := inp }
  | .null => some {}
  | _ => none

/-- Unmarshal into `[]ClaudeContentPart`. -/
def decodeContentParts : Json → Option (List ClaudeContentPart)
  | .arr xs => xs.mapM decodeContentPart
  | .null => some []
  | _ => none

/-- Is this generic part a `tool_result` part?  Mirrors the type assertion
`part["type"].(string)` followed by the comparison with `"tool_result"`. -/
def isToolResultPart (fs : List (String × Json)) : Bool :=
  match lookupJ fs "type" with
  | some (.str t) => t = "tool_result"
  | _ => false

/-- Build the synthesized tool-role message for one `tool_result` part:
`toolCallId` from the part's `tool_use_id` (when it is a string), content
from the part's nested content — an array of `{text}` objects joined with
newline when any text is found, or a plain string. -/
def buildToolMsg (fs : List (String × Json)) : OpenAIMessage :=
  let toolCallId :=
    match lookupJ fs "tool_use_id" with
    | some (.str s) => s
    | _ => ""
  let content : Option Json :=
    match lookupJ fs "content" with
    | some (.arr cs) =>
      let resultTexts := cs.filterMap fun c =>
        match c with
        | .obj cfs =>
          match lookupJ cfs "text" with
          | some (.str t) => some t
          | _ => none
        | _ => none
      if resultTexts.length > 0 then some (.str (goJoin resultTexts "\n")) else none
    | some (.str s) => some (.str s)
    | _ => none
  { role := "tool", content := content, toolCallID := toolCallId }

/-- The tool-role messages synthesized from the `tool_result` parts of one
user message, in part order. -/
def toolResultMessages (parts : List (List (String × Json))) : List OpenAIMessage :=
  parts.filterMap fun fs => if isToolResultPart fs then some (buildToolMsg fs) else none

/-- Model of `json.Marshal(part.Input)`: marshaling a nil
`map[string]interface{}` yields `null`. -/
def renderInput : Option (List (String × Json)) → String
  | none => "null"
  | some fs => marshal (.obj fs)

/-- The regular (non-tool-result) conversion of one Claude message, before
the emission filter: decode content as a string, else as typed parts
(text parts newline-joined, `tool_use` parts becoming tool calls), then
overwrite tool calls from the message's own `tool_calls` when present. -/
def regularConverted (msg : ClaudeMessage) : OpenAIMessage :=
  let base : OpenAIMessage :=
    { role := msg.role, toolCallID := msg.toolCallID, name := msg.name }
  let m1 :=
    match msg.content with
    | none => base
    | some c =>
      match decodeString c with
      | some s => { base with content := some (.str s) }
      | none =>
        match decodeContentParts c with
        | some parts =>
          let textParts := parts.filterMap fun part =>
            if part.type = "text" ∧ part.text ≠ "" then some part.text else none
          let toolCalls : List OpenAIToolCall := parts.filterMap fun part =>
            if part.type = "tool_use" then
              some { id := part.id, type := "function",
                     function := { name := part.name, arguments := renderInput part.input } }
            else none
          let m := if textParts.length > 0 then
              { base with content := some (.str (goJoin textParts "\n")) }
            else base
          if toolCalls.length > 0 then { m with toolCalls := toolCalls } else m
        | none => base
  if msg.toolCalls.length > 0 then
    { m1 with toolCalls := msg.toolCalls.map fun tc =>
        { id := tc.id, type := tc.type,
          function := { name := tc.function.name, arguments := tc.function.arguments } } }
  else m1

/-- The `hasContent` test of the emission filter: the content interface is
non-nil and its string form is non-empty (the type assertion
`Content.(string)` yields `""` for non-string content). -/
def openAIMsgHasContent (m : OpenAIMessage) : Bool :=
  let contentStr :=
    match m.content with
    | some (.str s) => s
    | _ => ""
  match m.content with
  | none => false
  | some _ => contentStr ≠ ""

/-- Emission filter of the regular path: keep the message only when it has
content or tool calls; an assistant message with only tool calls gets its
content forced to the nil interface. -/
def regularConvert (msg : ClaudeMessage) : List OpenAIMessage :=
  let m2 := regularConverted msg
  let hasContent := openAIMsgHasContent m2
  let hasToolCalls := m2.toolCalls.length > 0
  if hasContent ∨ hasToolCalls then
    [if m2.role = "assistant" ∧ hasToolCalls ∧ ¬ hasContent then
        { m2 with content := none }
      else m2]
  else []

/-- One iteration of the message loop of `convertClaudeToOpenAI`: a user
message whose content decodes as an array of generic maps containing a
`tool_result` part yields only the synthesized tool messages; everything
else goes through the regular conversion. -/
def convertClaudeMessage (msg : ClaudeMessage) : List OpenAIMessage :=
  let toolResultBranch : Option (List OpenAIMessage) :=
    if msg.role = "user" then
      match msg.content with
      | some c =>
        match decodeGenericParts c with
        | some parts =>
          if parts.any isToolResultPart then some (toolResultMessages parts) else none
        | none => none
      | none => none
    else none
  match toolResultBranch with
  | some msgs => msgs
  | none => regularConvert msg

/-- The synthetic system message prepended when the request carries
non-empty system text blocks (joined with a blank line). -/
def systemMessages (req : ClaudeRequest) : List OpenAIMessage :=
  let systemTexts := req.system.filterMap fun sys =>
    if sys.text ≠ "" then some sys.text else none
  if systemTexts.length > 0 then
    [{ role := "system", content := some (.str (goJoin systemTexts "\n\n")) }]
  else []

/-- `convertClaudeToOpenAI`: model defaulting, system-message merging, the
per-message conversion, tools mapping and tool-choice passthrough. -/
def convertClaudeToOpenAI (claudeReq : ClaudeRequest) : OpenAIRequest :=
  let modelName := if claudeReq.model = "" then defaultOpenAIModel else claudeReq.model
  { model := modelName
    stream := claudeReq.stream
    temperature := claudeReq.temperature
    maxTokens := claudeReq.maxTokens
    messages := systemMessages claudeReq ++
      (claudeReq.messages.map convertClaudeMessage).flatten
    tools := claudeReq.tools.map fun tool =>
      { type := "function"
        function := { name := tool.name, description := tool.description,
                      parameters := tool.inputSchema } }
    toolChoice := claudeReq.toolChoice }

/-- Serialize one `OpenAIToolCall` (struct marshaling, fields in
declaration order, no omitempty tags on these fields). -/
def serializeToolCall (tc : OpenAIToolCall) : Json :=
  .obj [("id", .str tc.id), ("type", .str tc.type),
        ("function", .obj [("name", .str tc.function.name),
                           ("arguments", .str tc.function.arguments)])]

/-- The field list `json.Marshal` produces for an `OpenAIMessage`, honoring
the struct tags: `role` always present; `content,omitempty` omitted exactly
when the interface is nil (an interface holding `""` is still emitted);
`tool_calls`/`tool_call_id`/`name` omitted when empty. -/
def serializeOpenAIMessage (m : OpenAIMessage) : List (String × Json) :=
  [("role", Json.str m.role)]
  ++ (match m.content with
      | none => []
      | some j => [("content", j)])
  ++ (if m.toolCalls.length > 0 then
        [("tool_calls", Json.arr (m.toolCalls.map serializeToolCall))]
      else [])
  ++ (if m.toolCallID ≠ "" then [("tool_call_id", Json.str m.toolCallID)] else [])
  ++ (if m.name ≠ "" then [("name", Json.str m.name)] else [])

/-- `OpenAIChoice`. -/
structure OpenAIChoice where
  index : Int
  message : OpenAIMessage
  finishReason : String

/-- `OpenAIResponse` (the upstream buffered response shape). -/
structure OpenAIResponse where
  id : String
  object : String
  created : Int
  model : String
  choices : List OpenAIChoice
  usage : DeepSeek.Usage

/-- `handleRegularResponse` of the Claude variant: re-serialize the parsed
upstream response with only the top-level `model` overwritten by the
`originalModel` argument. -/
def handleRegularResponse (openAIResp : OpenAIResponse) (originalModel : String) :
    OpenAIResponse :=
  { openAIResp with model := originalModel }

/-- The `originalModel` argument `proxyHandler` passes to both response
handlers (lines 537 and 542): the literal `claudeReq.Model`, not the
defaulted model used upstream. -/
def responseModelArg (claudeReq : ClaudeRequest) : String := claudeReq.model

/-- The model name the translator actually sends upstream. -/
def effectiveModel (claudeReq : ClaudeRequest) : String :=
  (convertClaudeToOpenAI claudeReq).model

/-- The auth-and-routing head of the Claude variant's `proxyHandler`:
OPTIONS short-circuits; a header without the `Bearer ` shape 401s; an
empty bearer token falls back to the environment key, 401ing when both are
empty; then GET `/v1/models` is answered locally. -/
def authRoute (method path authHeader envKey : String) : HandlerStep :=
  if method = "OPTIONS" then .corsOnly
  else if ¬ goStartsWith authHeader "Bearer " then .unauthorized
  else
    let userAPIKey := goStrip authHeader "Bearer "
    let activeAPIKey := if userAPIKey = "" then envKey else userAPIKey
    if activeAPIKey = "" then .unauthorized
    else if path = "/v1/models" ∧ method = "GET" then .modelsList
    else .proceed activeAPIKey

end Claude

/-! ## Helper lemmas -/

/-- The claim-side trigger condition coincides, on HTTP responses, with the
branch condition of the dispatcher (`status ≥ 400` and classified as a
model-not-found error). -/
theorem claimTrigger_iff (s : Nat) (b : String) :
    DeepSeek.claimTrigger (.resp s b) = true ↔
      ¬ s < 400 ∧ DeepSeek.isModelNotFoundError s b = true := by
  unfold DeepSeek.claimTrigger DeepSeek.isModelNotFoundError
  by_cases h404 : s = 404
  · subst h404; simp
  · by_cases h400 : s = 400
    · subst h400; simp [h404]
    · by_cases h422 : s = 422
      · subst h422; simp [h404, h400]
      · simp [h404, h400, h422]

/-- When the trigger condition holds on the first attempt, the dispatcher
runs the fallback tail. -/
theorem doFallback_of_trigger (model : String) (first second : DeepSeek.UpstreamResult)
    (h : DeepSeek.claimTrigger first = true) :
    DeepSeek.doDeepSeekRequestWithFallback model first second =
      DeepSeek.fallbackAttempt second := by
  cases first with
  | connErr => rfl
  | resp s b =>
    obtain ⟨hlt, hm⟩ := (claimTrigger_iff s b).mp h
    simp [DeepSeek.doDeepSeekRequestWithFallback, hlt, hm]

/-- When the trigger condition fails on a first-attempt response, the
dispatcher returns that response unchanged after a single attempt. -/
theorem doFallback_of_noTrigger (model : String) (second : DeepSeek.UpstreamResult)
    (s : Nat) (b : String) (h : DeepSeek.claimTrigger (.resp s b) = false) :
    DeepSeek.doDeepSeekRequestWithFallback model (.resp s b) second =
      { outcome := some (s, b, model), attempts := 1 } := by
  by_cases hlt : s < 400
  · simp [DeepSeek.doDeepSeekRequestWithFallback, hlt]
  · have hm : DeepSeek.isModelNotFoundError s b = false := by
      rcases hb : DeepSeek.isModelNotFoundError s b with _ | _
      · rfl
      · exact absurd ((claimTrigger_iff s b).mpr ⟨hlt, hb⟩) (by simp [h])
    simp [DeepSeek.doDeepSeekRequestWithFallback, hlt, hm]

/-- Claim C2: in the DeepSeek variant, exactly a transport-level connection
failure, a 404 status, or a 400/422 status whose body carries the
model-not-found signature triggers the fallback; on a trigger exactly one
retry is made with `deepseek-reasoner` (two attempts total, never more),
and any other response — 429 in particular — is returned to the caller
with no fallback attempt. -/
theorem C2_fallback_policy (model : String) (first second : DeepSeek.UpstreamResult) :
    (DeepSeek.doDeepSeekRequestWithFallback model first second).attempts ≤ 2 ∧
    ((DeepSeek.doDeepSeekRequestWithFallback model first second).attempts = 2 ↔
      DeepSeek.claimTrigger first = true) ∧
    (DeepSeek.claimTrigger first = false →
      ∀ s b, first = .resp s b →
        DeepSeek.doDeepSeekRequestWithFallback model first second =
          { outcome := some (s, b, model), attempts := 1 }) ∧
    (DeepSeek.claimTrigger first = true →
      ∀ s b, second = .resp s b →
        DeepSeek.doDeepSeekRequestWithFallback model first second =
          { outcome := some (s, b, DeepSeek.deepseekReasonerModel), attempts := 2 }) ∧
    (∀ b, first = .resp 429 b →
      DeepSeek.doDeepSeekRequestWithFallback model first second =
        { outcome := some (429, b, model), attempts := 1 }) := by
  refine ⟨?_, ?_, ?_, ?_, ?_⟩
  · rcases ht : DeepSeek.claimTrigger first with _ | _
    · cases first with
      | connErr => simp [DeepSeek.claimTrigger] at ht
      | resp s b => rw [doFallback_of_noTrigger model second s b ht]; simp
    · rw [doFallback_of_trigger model first second ht]
      cases second <;> simp [DeepSeek.fallbackAttempt]
  · rcases ht : DeepSeek.claimTrigger first with _ | _
    · cases first with
      | connErr => simp [DeepSeek.claimTrigger] at ht
      | resp s b => rw [doFallback_of_noTrigger model second s b ht]; simp
    · rw [doFallback_of_trigger model first second ht]
      cases second <;> simp [DeepSeek.fallbackAttempt]
  · intro ht s b hf
    subst hf
    exact doFallback_of_noTrigger model second s b ht
  · intro ht s b hs
    rw [doFallback_of_trigger model first second ht, hs]
    rfl
  · intro b hf
    subst hf
    have ht : DeepSeek.claimTrigger (.resp 429 b) = false := by
      simp [DeepSeek.claimTrigger, DeepSeek.bodySignalsModelNotFound]
    exact doFallback_of_noTrigger model second 429 b ht

/-- Witness for C2: a 404 first attempt retries exactly once with
`deepseek-reasoner`; a 429 first attempt is returned without any fallback. -/
theorem C2_fallback_policy_witness :
    DeepSeek.doDeepSeekRequestWithFallback "deepseek-chat" (.resp 404 "nf") (.resp 200 "ok") =
      { outcome := some (200, "ok", DeepSeek.deepseekReasonerModel), attempts := 2 } ∧
    DeepSeek.doDeepSeekRequestWithFallback "deepseek-chat" (.resp 429 "rate") (.resp 200 "ok") =
      { outcome := some (429, "rate", "deepseek-chat"), attempts := 1 } := by
  constructor
  · exact (C2_fallback_policy "deepseek-chat" (.resp 404 "nf") (.resp 200 "ok")).2.2.2.1
      (by decide) 200 "ok" rfl
  · exact (C2_fallback_policy "deepseek-chat" (.resp 429 "rate") (.resp 200 "ok")).2.2.2.2
      "rate" rfl

/-- Claim C10: a GET `/v1/models` request with no usable API key — in the
DeepSeek variant no Bearer token and no server key, in the Claude variant
no `Bearer `-shaped Authorization header — is answered 401 by the key check
that runs before the models endpoint is dispatched; the model list is not
returned. -/
theorem C10_models_requires_key (authHeader envKey : String) :
    ((goStrip authHeader "Bearer " = "" ∨ goStrip authHeader "Bearer " = authHeader) →
      DeepSeek.authRoute "GET" "/v1/models" authHeader "" = .unauthorized) ∧
    (goStartsWith authHeader "Bearer " = false →
      Claude.authRoute "GET" "/v1/models" authHeader envKey = .unauthorized) := by
  constructor
  · intro hds
    simp [DeepSeek.authRoute, hds]
  · intro hcl
    simp [Claude.authRoute, hcl]

/-- Witness for C10: an absent Authorization header is rejected by both
variants even with a configured Claude-side environment key. -/
theorem C10_models_requires_key_witness :
    DeepSeek.authRoute "GET" "/v1/models" "" "" = .unauthorized ∧
    Claude.authRoute "GET" "/v1/models" "" "poe-key" = .unauthorized := by
  constructor
  · exact (C10_models_requires_key "" "poe-key").1 (Or.inl (by decide))
  · exact (C10_models_requires_key "" "poe-key").2 (by decide)

/-- Claim C8: a `data: ` line whose payload is neither the `[DONE]` token
nor decodable JSON is forwarded to the client unmodified, and the relay
continues with the subsequent lines — it is neither dropped nor
stream-terminating. -/
theorem C8_malformed_forwarded (m line : String) (rest : List String)
    (h0 : goTrimSpace line ≠ "")
    (h1 : goStartsWith line "data: " = true)
    (h2 : goTrimSpace (goStrip line "data: ") ≠ "[DONE]")
    (h3 : parseObjTop (goTrimSpace (goStrip line "data: ")) = none) :
    relayLines m (line :: rest) = line :: relayLines m rest := by
  have hstep : relayStep m line = .forward line := by
    simp [relayStep, h0, h1, h2, h3]
  simp [relayLines, hstep]

/-- Witness for C8: a malformed event is passed through and the stream
continues up to the done marker. -/
theorem C8_malformed_forwarded_witness :
    relayLines "eff" ["data: \x7boops\n", "data: [DONE]\n"] =
      ["data: \x7boops\n", "data: [DONE]\n\n"] := by
  have h := C8_malformed_forwarded "eff" "data: \x7boops\n" ["data: [DONE]\n"]
    (by decide) (by decide) (by decide) rfl
  exact h.trans (by rfl)

/-- Claim C3: on the input `data: <json>`, blank line, `data: [DONE]`, the
relay emits the event re-encoded with its `model` replaced by the effective
model, preserves the blank line, writes the terminal done marker, and
writes nothing for any further input. -/
theorem C3_stream_shape (m payload : String) (obj0 : List (String × Json))
    (rest : List String)
    (h0 : goTrimSpace ("data: " ++ payload ++ "\n") ≠ "")
    (h1 : goStartsWith ("data: " ++ payload ++ "\n") "data: " = true)
    (h2 : goTrimSpace (goStrip ("data: " ++ payload ++ "\n") "data: ") = payload)
    (hp : parseObjTop payload = some obj0) :
    relayLines m (("data: " ++ payload ++ "\n") :: "\n" :: "data: [DONE]\n" :: rest) =
      ["data: " ++ marshal (Json.obj (setKey obj0 "model" (Json.str m))) ++ "\n\n",
       "\n", "data: [DONE]\n\n"] := by
  have hne : payload ≠ "[DONE]" := by
    intro e
    rw [e] at hp
    simp [show parseObjTop "[DONE]" = none from rfl] at hp
  have hstep1 : relayStep m ("data: " ++ payload ++ "\n") =
      .forward ("data: " ++ marshal (Json.obj (setKey obj0 "model" (Json.str m))) ++ "\n\n") := by
    simp [relayStep, h0, h1, h2, hp, hne]
  have hstep2 : relayStep m "\n" = .forward "\n" := rfl
  have hstep3 : relayStep m "data: [DONE]\n" = .done := rfl
  simp [relayLines, hstep1, hstep2, hstep3]

/-- Witness for C3: a concrete one-field event with a trailing line after
the done marker; the trailing line is not relayed. -/
theorem C3_stream_shape_witness :
    relayLines "eff" ["data: \x7b\"model\":\"x\"\x7d\n", "\n", "data: [DONE]\n",
        "data: ignored\n"] =
      ["data: \x7b\"model\":\"eff\"\x7d\n\n", "\n", "data: [DONE]\n\n"] := by
  have h := C3_stream_shape "eff" "\x7b\"model\":\"x\"\x7d" [("model", Json.str "x")]
    ["data: ignored\n"] (by decide) (by decide) (by decide) rfl
  exact h.trans (by rfl)

/-- Map assignment then lookup on the assigned key yields the assigned
value. -/
theorem lookupJ_setKey (fs : List (String × Json)) (k : String) (v : Json) :
    lookupJ (setKey fs k v) k = some v := by
  induction fs with
  | nil => simp [setKey, lookupJ]
  | cons p rest ih =>
    obtain ⟨k1, v1⟩ := p
    by_cases h : k1 = k
    · simp [setKey, lookupJ, h]
    · simp [setKey, lookupJ, h, ih]

/-- The model the dispatcher reports as used: the request model when no
trigger fired, the fixed fallback model when one did. -/
theorem usedModel_of_outcome (model : String) (first second : DeepSeek.UpstreamResult)
    (s : Nat) (b used : String)
    (h : (DeepSeek.doDeepSeekRequestWithFallback model first second).outcome =
      some (s, b, used)) :
    (DeepSeek.claimTrigger first = false → used = model) ∧
    (DeepSeek.claimTrigger first = true → used = DeepSeek.deepseekReasonerModel) := by
  constructor
  · intro ht
    cases first with
    | connErr => simp [DeepSeek.claimTrigger] at ht
    | resp s1 b1 =>
      rw [doFallback_of_noTrigger model second s1 b1 ht] at h
      simp at h
      exact h.2.2.symm
  · intro ht
    rw [doFallback_of_trigger model first second ht] at h
    cases second with
    | connErr => simp [DeepSeek.fallbackAttempt] at h
    | resp s2 b2 =>
      simp [DeepSeek.fallbackAttempt] at h
      exact h.2.2.symm

/-- Claim C1 (amended): in the DeepSeek variant every translated response —
buffered reply and decoded stream event alike — carries the model the
dispatcher actually used, which is the requested-or-defaulted model when no
fallback fired and `deepseek-reasoner` when one did, never the value the
upstream echoed.  In the Claude variant the response model is the caller's
literal requested model string, which equals the effective model whenever
the request's model is non-empty. -/
theorem C1_response_model (chatModel : String) (first second : DeepSeek.UpstreamResult)
    (s : Nat) (b used : String)
    (h : (DeepSeek.doDeepSeekRequestWithFallback (DeepSeek.requestModelOf chatModel)
        first second).outcome = some (s, b, used)) :
    (DeepSeek.originalModelAfter chatModel used = used ∧
     (DeepSeek.claimTrigger first = false → used = DeepSeek.requestModelOf chatModel) ∧
     (DeepSeek.claimTrigger first = true → used = DeepSeek.deepseekReasonerModel) ∧
     (∀ resp : DeepSeek.DSResponse,
        (DeepSeek.handleRegularResponse resp
          (DeepSeek.originalModelAfter chatModel used)).model = used) ∧
     (∀ fs : List (String × Json),
        lookupJ (setKey fs "model"
          (Json.str (DeepSeek.originalModelAfter chatModel used))) "model" =
          some (Json.str used))) ∧
    (∀ (resp : Claude.OpenAIResponse) (req : Claude.ClaudeRequest),
      (Claude.handleRegularResponse resp (Claude.responseModelArg req)).model = req.model ∧
      (req.model ≠ "" → Claude.effectiveModel req = req.model)) := by
  have huse := usedModel_of_outcome (DeepSeek.requestModelOf chatModel) first second s b used h
  have homa : DeepSeek.originalModelAfter chatModel used = used := by
    unfold DeepSeek.originalModelAfter
    by_cases hu : used = DeepSeek.requestModelOf chatModel
    · simp [hu]
    · simp [hu]
  refine ⟨⟨homa, huse.1, huse.2, ?_, ?_⟩, ?_⟩
  · intro resp
    simp [DeepSeek.handleRegularResponse, homa]
  · intro fs
    rw [lookupJ_setKey, homa]
  · intro resp req
    refine ⟨rfl, fun hne => ?_⟩
    simp [Claude.effectiveModel, Claude.convertClaudeToOpenAI, hne]

/-- Counterexample for C1: in the Claude variant an empty inbound model is
translated upstream as the configured default, but the response rewriting
uses the literal empty string, so the caller sees `""` instead of the
effective model. -/
theorem C1_counterexample :
    Claude.effectiveModel { model := "", messages := [] } = "claude-sonnet-4.5" ∧
    (Claude.handleRegularResponse
      { id := "r1", object := "chat.completion", created := 1,
        model := "upstream-echo", choices := [], usage := {} }
      (Claude.responseModelArg { model := "", messages := [] })).model = "" ∧
    ("" : String) ≠ "claude-sonnet-4.5" := by
  refine ⟨rfl, rfl, by decide⟩

/-- Witness for C1 at a concrete run: empty requested model, first attempt
404s, fallback succeeds; both the buffered reply and a rewritten stream
chunk carry `deepseek-reasoner`. -/
theorem C1_response_model_witness :
    (DeepSeek.handleRegularResponse
      { id := "r", object := "x", created := 1, model := "upstream-echo",
        choices := [], usage := {} }
      (DeepSeek.originalModelAfter "" "deepseek-reasoner")).model = "deepseek-reasoner" ∧
    lookupJ (setKey [("model", Json.str "upstream-echo")] "model"
      (Json.str (DeepSeek.originalModelAfter "" "deepseek-reasoner"))) "model" =
      some (Json.str "deepseek-reasoner") := by
  have h := C1_response_model "" (.resp 404 "nf") (.resp 200 "ok") 200 "ok"
    "deepseek-reasoner" rfl
  exact ⟨h.1.2.2.2.1 _, h.1.2.2.2.2 _⟩

/-- Claim C4 (amended): for a user-role message whose content decodes as an
array of generic parts containing a `tool_result` part, the translator
emits exactly the synthesized tool-role messages at that message's position
— one per `tool_result` part, with `toolCallId` from that part's
`tool_use_id` — and the original message is not also emitted as a regular
message.  Non-user messages never take this branch. -/
theorem C4_tool_result (msg : Claude.ClaudeMessage) (c : Json)
    (parts : List (List (String × Json)))
    (hrole : msg.role = "user") (hc : msg.content = some c)
    (hdec : decodeGenericParts c = some parts)
    (hany : parts.any Claude.isToolResultPart = true) :
    Claude.convertClaudeMessage msg = Claude.toolResultMessages parts ∧
    (∀ m ∈ Claude.toolResultMessages parts, m.role = "tool") ∧
    (∀ fs ∈ parts, Claude.isToolResultPart fs = true →
      Claude.buildToolMsg fs ∈ Claude.convertClaudeMessage msg ∧
      (Claude.buildToolMsg fs).toolCallID =
        (match lookupJ fs "tool_use_id" with
          | some (.str s) => s
          | _ => "")) := by
  have hbranch : Claude.convertClaudeMessage msg = Claude.toolResultMessages parts := by
    simp [Claude.convertClaudeMessage, hrole, hc, hdec, hany]
  refine ⟨hbranch, ?_, ?_⟩
  · intro m hm
    simp only [Claude.toolResultMessages, List.mem_filterMap] at hm
    obtain ⟨fs, _, hfs⟩ := hm
    by_cases htr : Claude.isToolResultPart fs = true
    · rw [if_pos htr] at hfs
      cases hfs
      rfl
    · rw [if_neg htr] at hfs
      cases hfs
  · intro fs hfsmem htr
    refine ⟨?_, rfl⟩
    rw [hbranch]
    simp only [Claude.toolResultMessages, List.mem_filterMap]
    exact ⟨fs, hfsmem, by rw [if_pos htr]⟩

/-- The assistant-role message refuting claim C4 as stated: its content
array contains a `tool_result` part, yet the branch synthesizing tool
messages only fires for user-role messages. -/
def C4cexMsg : Claude.ClaudeMessage :=
  { role := "assistant",
    content := some (.arr [.obj [("type", .str "tool_result"),
      ("tool_use_id", .str "toolu_1"), ("content", .str "ok")]]) }

/-- Counterexample for C4: an assistant message carrying a `tool_result`
part produces no message at all — in particular no tool-role message with
`toolCallId` `toolu_1`. -/
theorem C4_counterexample :
    Claude.convertClaudeMessage C4cexMsg = [] ∧
    ¬ ∃ m ∈ Claude.convertClaudeMessage C4cexMsg,
        m.role = "tool" ∧ m.toolCallID = "toolu_1" := by
  refine ⟨rfl, ?_⟩
  rintro ⟨m, hm, -⟩
  rw [show Claude.convertClaudeMessage C4cexMsg = [] from rfl] at hm
  simp at hm

/-- Witness for C4: the same part inside a user-role message does produce
exactly one tool message with the part's `tool_use_id`. -/
theorem C4_tool_result_witness :
    Claude.convertClaudeMessage { C4cexMsg with role := "user" } =
      [{ role := "tool", content := some (Json.str "ok"), toolCalls := [],
         toolCallID := "toolu_1", name := "" }] := by
  have h := C4_tool_result { C4cexMsg with role := "user" }
    (.arr [.obj [("type", .str "tool_result"),
      ("tool_use_id", .str "toolu_1"), ("content", .str "ok")]])
    [[("type", .str "tool_result"), ("tool_use_id", .str "toolu_1"),
      ("content", .str "ok")]]
    rfl rfl rfl rfl
  exact h.1.trans (by rfl)

/-- A message whose content interface is nil serializes with no `content`
member at all. -/
theorem lookupJ_serialize_content_none (m : Claude.OpenAIMessage)
    (h : m.content = none) :
    lookupJ (Claude.serializeOpenAIMessage m) "content" = none := by
  unfold Claude.serializeOpenAIMessage
  rw [h]
  by_cases h1 : m.toolCalls.length > 0 <;>
    by_cases h2 : m.toolCallID ≠ "" <;>
    by_cases h3 : m.name ≠ "" <;>
    simp [h1, h2, h3, lookupJ]

/-- Claim C5 (amended): an assistant message translating to tool calls and
no non-empty text has its content set to the nil interface, and the
`omitempty` tag then omits the `content` member from the serialized object
entirely (in particular it is not an empty string and not an explicit
null). -/
theorem C5_content_nil_omitted (msg : Claude.ClaudeMessage)
    (hrole : (Claude.regularConverted msg).role = "assistant")
    (htc : (Claude.regularConverted msg).toolCalls.length > 0)
    (hnc : Claude.openAIMsgHasContent (Claude.regularConverted msg) = false) :
    ∃ out, Claude.regularConvert msg = [out] ∧
      out.content = none ∧
      out.toolCalls = (Claude.regularConverted msg).toolCalls ∧
      lookupJ (Claude.serializeOpenAIMessage out) "content" = none := by
  have hconv : Claude.regularConvert msg =
      [{ Claude.regularConverted msg with content := none }] := by
    unfold Claude.regularConvert
    rw [if_pos (Or.inr htc), if_pos ⟨hrole, htc, by simp [hnc]⟩]
  exact ⟨{ Claude.regularConverted msg with content := none }, hconv, rfl, rfl,
    lookupJ_serialize_content_none _ rfl⟩

/-- The assistant message (one `tool_use` part, no text) used for the C5
counterexample and witness. -/
def C5msg : Claude.ClaudeMessage :=
  { role := "assistant",
    content := some (.arr [.obj [("type", .str "tool_use"), ("id", .str "t1"),
      ("name", .str "f"), ("input", .obj [("x", .num 1)])]]) }

/-- The single tool call `regularConvert` synthesizes for `C5msg`. -/
def C5tc : Claude.OpenAIToolCall :=
  { id := "t1", type := "function",
    function := { name := "f", arguments := "\x7b\"x\":1\x7d" } }

/-- The translated message `regularConvert` produces for `C5msg`. -/
def C5out : Claude.OpenAIMessage :=
  { role := "assistant", content := none, toolCalls := [C5tc],
    toolCallID := "", name := "" }

/-- Counterexample for C5: for an assistant message with one tool call and
no text, the serialized message has no `content` member, so the content is
not the explicit JSON null the claim requires. -/
theorem C5_counterexample :
    Claude.regularConvert C5msg = [C5out] ∧
    C5out.toolCalls ≠ [] ∧
    lookupJ (Claude.serializeOpenAIMessage C5out) "content" = none ∧
    lookupJ (Claude.serializeOpenAIMessage C5out) "content" ≠ some Json.null := by
  refine ⟨rfl, ?_, rfl, ?_⟩
  · exact fun h => List.cons_ne_nil _ _ h
  · intro h
    rw [show lookupJ (Claude.serializeOpenAIMessage C5out) "content" = none from rfl] at h
    exact Option.noConfusion h

/-- Witness for C5 (amended): the same concrete message goes through the
amended theorem. -/
theorem C5_content_nil_omitted_witness :
    ∃ out, Claude.regularConvert C5msg = [out] ∧ out.content = none ∧
      lookupJ (Claude.serializeOpenAIMessage out) "content" = none := by
  obtain ⟨out, h1, h2, -, h4⟩ :=
    C5_content_nil_omitted C5msg rfl (by decide) rfl
  exact ⟨out, h1, h2, h4⟩

/-- Claim C6 (amended): the non-empty-content-or-tool-calls emission filter
governs exactly the regular conversion path; a message taking the
`tool_result` branch has its synthesized tool messages emitted with no
filter at all, and the DeepSeek variant's `convertMessages` emits every
message unconditionally. -/
theorem C6_emission_filter (msg : Claude.ClaudeMessage)
    (msgs : List DeepSeek.Message) :
    (Claude.convertClaudeMessage msg = Claude.regularConvert msg ∨
      ∃ c parts, msg.role = "user" ∧ msg.content = some c ∧
        decodeGenericParts c = some parts ∧
        parts.any Claude.isToolResultPart = true ∧
        Claude.convertClaudeMessage msg = Claude.toolResultMessages parts) ∧
    (Claude.regularConvert msg ≠ [] ↔
      (Claude.openAIMsgHasContent (Claude.regularConverted msg) = true ∨
        (Claude.regularConverted msg).toolCalls.length > 0)) ∧
    (∀ parts fs, fs ∈ parts → Claude.isToolResultPart fs = true →
      Claude.buildToolMsg fs ∈ Claude.toolResultMessages parts) ∧
    (DeepSeek.convertMessages msgs).length = msgs.length := by
  refine ⟨?_, ?_, ?_, ?_⟩
  · by_cases hrole : msg.role = "user"
    · cases hc : msg.content with
      | none => left; simp [Claude.convertClaudeMessage, hrole, hc]
      | some c =>
        cases hdec : decodeGenericParts c with
        | none => left; simp [Claude.convertClaudeMessage, hrole, hc, hdec]
        | some parts =>
          by_cases hany : parts.any Claude.isToolResultPart = true
          · right
            exact ⟨c, parts, hrole, rfl, hdec, hany,
              by simp [Claude.convertClaudeMessage, hrole, hc, hdec, hany]⟩
          · left
            simp [Claude.convertClaudeMessage, hrole, hc, hdec, hany]
    · left; simp [Claude.convertClaudeMessage, hrole]
  · unfold Claude.regularConvert
    by_cases h : Claude.openAIMsgHasContent (Claude.regularConverted msg) = true ∨
        (Claude.regularConverted msg).toolCalls.length > 0
    · rw [if_pos h]
      simp [h]
    · rw [if_neg h]
      simp [h]
  · intro parts fs hmem htr
    simp only [Claude.toolResultMessages, List.mem_filterMap]
    exact ⟨fs, hmem, by rw [if_pos htr]⟩
  · simp [DeepSeek.convertMessages]

/-- The user message (a bare `tool_result` part with no `tool_use_id` and
no content) used for the C6 counterexample. -/
def C6cexMsg : Claude.ClaudeMessage :=
  { role := "user", content := some (.arr [.obj [("type", .str "tool_result")]]) }

/-- Counterexample for C6: a message whose translation has empty content
and no tool calls is nevertheless emitted (through the tool_result
branch). -/
theorem C6_counterexample :
    ∃ m, Claude.convertClaudeMessage C6cexMsg = [m] ∧
      m.content = none ∧ m.toolCalls = [] := by
  exact ⟨_, rfl, rfl, rfl⟩

/-- Witness for C6 (amended): a regular message with empty content and no
tool calls is dropped, while one with text is kept. -/
theorem C6_emission_filter_witness :
    Claude.regularConvert { role := "user", content := some (Json.str "") } = [] ∧
    Claude.regularConvert { role := "user", content := some (Json.str "hi") } ≠ [] ∧
    (DeepSeek.convertMessages [{ role := "user", content := some (Json.str "hi") }]).length = 1 := by
  refine ⟨?_, ?_, ?_⟩
  · by_contra hne
    have h := ((C6_emission_filter { role := "user", content := some (Json.str "") } []).2.1).mp hne
    rcases h with h | h
    · rw [show Claude.openAIMsgHasContent (Claude.regularConverted
        { role := "user", content := some (Json.str "") }) = false from rfl] at h
      cases h
    · rw [show (Claude.regularConverted
        { role := "user", content := some (Json.str "") }).toolCalls.length = 0 from rfl] at h
      exact Nat.lt_irrefl 0 h
  · exact ((C6_emission_filter { role := "user", content := some (Json.str "hi") } []).2.1).mpr
      (Or.inl rfl)
  · exact (C6_emission_filter { role := "user", content := some (Json.str "hi") }
      [{ role := "user", content := some (Json.str "hi") }]).2.2.2

/-- The tool choice carried by the built DeepSeek request: the conversion
result when tools or functions are declared, absent otherwise. -/
theorem buildDeepSeekRequest_toolChoice (chatReq : DeepSeek.ChatRequest) :
    (DeepSeek.buildDeepSeekRequest chatReq).toolChoice =
      if chatReq.tools.length > 0 ∨ chatReq.functions.length > 0 then
        DeepSeek.convertToolChoice chatReq.toolChoice
      else "" := by
  unfold DeepSeek.buildDeepSeekRequest
  cases chatReq.temperature <;> cases chatReq.maxTokens <;>
    by_cases ht : chatReq.tools.length > 0 <;>
    by_cases hf : chatReq.functions.length > 0 <;>
    by_cases htc : DeepSeek.convertToolChoice chatReq.toolChoice = "" <;>
    simp [ht, hf, htc]

/-- Claim C7 (amended): in the DeepSeek variant, when tools or functions
are declared, the translated tool choice is the literal string for
`"auto"`/`"none"` inputs, `"auto"` for any object-shaped selector whose
`type` is `"function"` (whatever function it names), and absent for every
other shape including null; with no tools or functions declared it is
always absent.  The Claude variant forwards any non-null tool choice
unchanged and omits a null one. -/
theorem C7_tool_choice (chatReq : DeepSeek.ChatRequest) (req : Claude.ClaudeRequest) :
    ((chatReq.tools.length > 0 ∨ chatReq.functions.length > 0) →
      (DeepSeek.buildDeepSeekRequest chatReq).toolChoice =
        DeepSeek.convertToolChoice chatReq.toolChoice) ∧
    ((chatReq.tools.length = 0 ∧ chatReq.functions.length = 0) →
      (DeepSeek.buildDeepSeekRequest chatReq).toolChoice = "") ∧
    (∀ s, (s = "auto" ∨ s = "none") →
      DeepSeek.convertToolChoice (some (.str s)) = s) ∧
    (∀ s, s ≠ "auto" → s ≠ "none" →
      DeepSeek.convertToolChoice (some (.str s)) = "") ∧
    (∀ fs, lookupJ fs "type" = some (Json.str "function") →
      DeepSeek.convertToolChoice (some (.obj fs)) = "auto") ∧
    (∀ fs t, lookupJ fs "type" = some (Json.str t) → t ≠ "function" →
      DeepSeek.convertToolChoice (some (.obj fs)) = "") ∧
    DeepSeek.convertToolChoice none = "" ∧
    DeepSeek.convertToolChoice (some .null) = "" ∧
    (∀ n, DeepSeek.convertToolChoice (some (.num n)) = "") ∧
    (∀ b, DeepSeek.convertToolChoice (some (.bool b)) = "") ∧
    (∀ xs, DeepSeek.convertToolChoice (some (.arr xs)) = "") ∧
    (Claude.convertClaudeToOpenAI req).toolChoice = req.toolChoice := by
  refine ⟨?_, ?_, ?_, ?_, ?_, ?_, rfl, rfl, fun n => rfl, fun b => rfl, fun xs => rfl, rfl⟩
  · intro h
    rw [buildDeepSeekRequest_toolChoice, if_pos h]
  · intro h
    rw [buildDeepSeekRequest_toolChoice, if_neg]
    omega
  · rintro s (rfl | rfl) <;> rfl
  · intro s h1 h2
    simp [DeepSeek.convertToolChoice, h1, h2]
  · intro fs hty
    simp [DeepSeek.convertToolChoice, hty]
  · intro fs t hty hne
    simp [DeepSeek.convertToolChoice, hty, hne]

/-- The structured function selector of the C7 scenario. -/
def C7sel : Json :=
  .obj [("type", .str "function"), ("function", .obj [("name", .str "foo")])]

/-- The Claude-variant request carrying the structured selector. -/
def C7req : Claude.ClaudeRequest :=
  { model := "claude-sonnet-4.5", messages := [], toolChoice := some C7sel }

/-- Counterexample for C7: the Claude variant passes the structured
selector through verbatim instead of degrading it to `"auto"`. -/
theorem C7_counterexample :
    (Claude.convertClaudeToOpenAI C7req).toolChoice = some C7sel ∧
    some C7sel ≠ some (Json.str "auto") := by
  refine ⟨rfl, fun h => ?_⟩
  exact Json.noConfusion (Option.some.inj h)

/-- The declared tool of the C7 witness request. -/
def C7tool : DeepSeek.Tool :=
  { type := "function",
    function := { name := "foo", description := "", parameters := .null } }

/-- The DeepSeek-variant request used as the C7 witness. -/
def C7chatReq : DeepSeek.ChatRequest :=
  { model := "deepseek-chat", messages := [], stream := false,
    tools := [C7tool], toolChoice := some C7sel }

/-- Witness for C7: in the DeepSeek variant the same selector degrades to
`"auto"` when tools are declared. -/
theorem C7_tool_choice_witness :
    (DeepSeek.buildDeepSeekRequest C7chatReq).toolChoice = "auto" := by
  have h := (C7_tool_choice C7chatReq { model := "", messages := [] }).1
    (Or.inl (by decide))
  rw [h]
  exact (C7_tool_choice C7chatReq { model := "", messages := [] }).2.2.2.2.1
    [("type", Json.str "function"), ("function", Json.obj [("name", Json.str "foo")])] rfl

/-- The well-formed tool call of the C9 failing input. -/
def C9tc : DeepSeek.ToolCall :=
  { id := "call_1", type := "function",
    function := { name := "get_weather", arguments := "\x7b\x7d" } }

/-- An upstream tool call with an empty function name. -/
def C9tcE : DeepSeek.ToolCall :=
  { id := "call_2", type := "function",
    function := { name := "", arguments := "\x7b\x7d" } }

/-- The single choice of the C9 failing input, carrying the given tool
calls. -/
def C9choice (tcs : List DeepSeek.ToolCall) : DeepSeek.RespChoice :=
  { index := 0,
    message := { role := "assistant", content := some (.str ""), toolCalls := tcs },
    finishReason := "tool_calls" }

/-- An upstream buffered response whose single choice carries the given
tool calls. -/
def C9resp (tcs : List DeepSeek.ToolCall) : DeepSeek.DSResponse :=
  { id := "r", object := "chat.completion", created := 5, model := "deepseek-chat",
    choices := [C9choice tcs], usage := {} }

/-- Claim C9 evaluated at the failing input: the struct copy already
carries the upstream tool-call slice, so the filtering loop appends each
non-empty-name tool call a second time (it appears twice, not once), and a
tool call with an empty function name survives in the output via the copy
instead of being skipped. -/
theorem C9_tool_calls_duplicated :
    ((DeepSeek.handleRegularResponse (C9resp [C9tc]) "m").choices.map
      fun c => c.message.toolCalls) = [[C9tc, C9tc]] ∧
    ((DeepSeek.handleRegularResponse (C9resp [C9tcE]) "m").choices.map
      fun c => c.message.toolCalls) = [[C9tcE]] := by
  exact ⟨rfl, rfl⟩
